import Mathlib

/-!
Verification of the blog-listing pipeline of a personal portfolio site.

The page component `Home` (src/app/page.tsx) computes

  const blogs = allBlogs.slice(0, 2).sort((a, b) => {
    if (new Date(a.publishedAt) > new Date(b.publishedAt)) { return -1; }
    return 1;
  });

and renders `blogs` under the heading "Latest posts", each list item keyed by
`blog.slug`. The collection `allBlogs` is generated at build time from the two
MDX content files, whose front matter carries `title`, `summary`, `type` and
`publishedAt`.

Modelling notes.
* `publishedAt` is an ISO `yyyy-mm-dd` date string parsed with `new Date`;
  comparison of the resulting timestamps is order-isomorphic to the numeric
  `yyyymmdd` encoding used here, so `publishedAt` is embedded as a `Nat`.
* `Array.prototype.slice(0, n)` returns a fresh array of the first `n`
  elements; it is embedded as `List.take n`.
* `Array.prototype.sort(cmp)` sorts in place (here: the fresh copy made by
  `slice`) and returns the sorted array. ECMAScript specifies the resulting
  order only when `cmp` is a consistent comparator; `sortCmp` below is a
  stable comparator sort, hence one conforming implementation. The comparator
  in `Home` never returns 0, so it is inconsistent on documents with equal
  timestamps and the relative order of such a pair is implementation-defined;
  no theorem below depends on the tie behaviour of `sortCmp`.
-/

/-- One generated blog document: the front-matter fields used by the page,
plus the `slug` computed from the content filename. -/
structure BlogDocument where
  slug : String
  title : String
  summary : String
  type : String
  publishedAt : Nat
deriving DecidableEq

/-- The comparator literal passed to `sort` in `Home`: it returns `-1` when
`a.publishedAt` parses to a strictly later date than `b.publishedAt`, and `1`
otherwise (it never returns `0`). -/
def dateCmp (a b : BlogDocument) : Int :=
  if b.publishedAt < a.publishedAt then -1 else 1

/-- Insert `a` into `l` after every element `b` that the comparator places
strictly before `a` (that is, while `cmp b a < 0`). -/
def insertCmp (cmp : α → α → Int) (a : α) : List α → List α
  | [] => [a]
  | b :: l => if cmp b a < 0 then b :: insertCmp cmp a l else a :: b :: l

/-- Embedding of `Array.prototype.sort(cmp)`: a stable comparator sort,
which is one conforming ECMAScript implementation (the specified order is
unique whenever `cmp` is a consistent comparator). -/
def sortCmp (cmp : α → α → Int) : List α → List α
  | [] => []
  | a :: l => insertCmp cmp a (sortCmp cmp l)

/-- The listing operation of the spec, `listing(docs, N)`, as the code
realises it with the literal count 2 generalised to `n`:
`docs.slice(0, n).sort(dateCmp)`. Note the truncation happens before the
sort, exactly as in the source. -/
def listing (docs : List BlogDocument) (n : Nat) : List BlogDocument :=
  sortCmp dateCmp (docs.take n)

/-- The `blogs` constant computed by `Home`:
`allBlogs.slice(0, 2).sort(dateCmp)`. -/
def homeBlogs (docs : List BlogDocument) : List BlogDocument :=
  listing docs 2

/-- State-passing view of the render step of `Home`: `slice(0, 2)` copies the
first two elements into a fresh array, `sort` mutates only that copy, and the
original `allBlogs` array is left as it was. The first component is the
rendered sequence, the second the collection after the run. -/
def homeRender (docs : List BlogDocument) : List BlogDocument × List BlogDocument :=
  (sortCmp dateCmp (docs.take 2), docs)

/-- Modelled from the spec: the slug of a blog document is "derived from
filename" (the contentlayer configuration computing it is not among the
provided sources); the slug is the content filename with its `.mdx`
extension removed. -/
def slugOfFilename (filename : String) : String :=
  filename.dropRight 4

/-- The document generated from `src/content/format-nestjs-response.mdx`. -/
def formatNestjsResponse : BlogDocument :=
  { slug := slugOfFilename "format-nestjs-response.mdx"
    title := "Format Nest.js Response using Interceptors"
    summary := "Learn how to format and make the standardarized response in Nest.js using Interceptors."
    type := "Blog"
    publishedAt := 20240428 }

/-- The document generated from `src/content/serialize-response-nestjs.mdx`. -/
def serializeResponseNestjs : BlogDocument :=
  { slug := slugOfFilename "serialize-response-nestjs.mdx"
    title := "Serialize Nest.js API Response using class-transformer and class-validator"
    summary := "Learn how to serialize Nest.js API response using class-transformer and class-validator"
    type := "Blog"
    publishedAt := 20240430 }

/-- The generated collection: both content files, in filename order. -/
def allBlogs : List BlogDocument :=
  [formatNestjsResponse, serializeResponseNestjs]

/-- Helper for concrete counterexample collections: a document with the given
slug and date and empty remaining fields. -/
def sampleDoc (s : String) (d : Nat) : BlogDocument :=
  { slug := s, title := "", summary := "", type := "Blog", publishedAt := d }

/-- Three documents with strictly ascending dates; the most recent one is in
the third collection position. -/
def threeAscending : List BlogDocument :=
  [sampleDoc "d1" 20240101, sampleDoc "d2" 20240102, sampleDoc "d3" 20240103]

/-- Five documents with strictly ascending dates; the most recent one is in
the fifth collection position. -/
def fiveAscending : List BlogDocument :=
  [sampleDoc "d1" 20240101, sampleDoc "d2" 20240102, sampleDoc "d3" 20240103,
   sampleDoc "d4" 20240104, sampleDoc "d5" 20240105]

theorem dateCmp_neg_iff (a b : BlogDocument) :
    dateCmp a b < 0 ↔ b.publishedAt < a.publishedAt := by
  unfold dateCmp
  split_ifs with h <;> simp [h]

theorem length_insertCmp (cmp : α → α → Int) (a : α) (l : List α) :
    (insertCmp cmp a l).length = l.length + 1 := by
  induction l with
  | nil => rfl
  | cons b l ih => unfold insertCmp; split_ifs <;> simp [ih]

theorem length_sortCmp (cmp : α → α → Int) (l : List α) :
    (sortCmp cmp l).length = l.length := by
  induction l with
  | nil => rfl
  | cons a l ih => simp [sortCmp, length_insertCmp, ih]

theorem perm_insertCmp (cmp : α → α → Int) (a : α) (l : List α) :
    (insertCmp cmp a l).Perm (a :: l) := by
  induction l with
  | nil => exact List.Perm.refl _
  | cons b l ih =>
    unfold insertCmp
    split_ifs
    · exact (ih.cons b).trans (List.Perm.swap a b l)
    · exact List.Perm.refl _

theorem perm_sortCmp (cmp : α → α → Int) (l : List α) : (sortCmp cmp l).Perm l := by
  induction l with
  | nil => exact List.Perm.refl _
  | cons a l ih => exact (perm_insertCmp cmp a (sortCmp cmp l)).trans (ih.cons a)

/-- Claim C1: the code truncates to the first two collection elements before
sorting, so the listing does not contain the most recent documents of the
collection: on three ascending-dated documents `Home` renders the first two
and omits the most recent, and with N=1 over five ascending-dated documents
the output is the oldest document, not the most recent one. This evaluates
the code at the failing inputs of the code_bug report. -/
theorem home_omits_most_recent_document :
    homeBlogs threeAscending = [sampleDoc "d2" 20240102, sampleDoc "d1" 20240101] ∧
    sampleDoc "d3" 20240103 ∉ homeBlogs threeAscending ∧
    listing fiveAscending 1 = [sampleDoc "d1" 20240101] ∧
    sampleDoc "d5" 20240105 ∉ listing fiveAscending 1 := by
  decide

/-- Claim C3: the sequence rendered by `Home` is sorted by `publishedAt`
descending: every adjacent pair satisfies earlier ≥ later. -/
theorem homeBlogs_sorted_descending (docs : List BlogDocument) :
    List.Chain' (fun a b => b.publishedAt ≤ a.publishedAt) (homeBlogs docs) := by
  match docs with
  | [] => simp [homeBlogs, listing, sortCmp]
  | [a] => simp [homeBlogs, listing, sortCmp, insertCmp]
  | a :: b :: rest =>
    have ht : homeBlogs (a :: b :: rest)
        = if dateCmp b a < 0 then [b, a] else [a, b] := by
      simp [homeBlogs, listing, sortCmp, insertCmp]
    rw [ht]
    by_cases h : dateCmp b a < 0
    · have hba := (dateCmp_neg_iff b a).mp h
      simp [h, List.chain'_cons]
      omega
    · have hba : ¬ a.publishedAt < b.publishedAt := fun hc => h ((dateCmp_neg_iff b a).mpr hc)
      simp [h, List.chain'_cons]
      omega

/-- Claim C4: for every collection and every count `n`, the listing returns a
sequence of length `min n |docs|` (the code fixes the count literal at 2;
`listing` generalises that literal to `n`). -/
theorem listing_length_min (docs : List BlogDocument) (n : Nat) :
    (listing docs n).length = min n docs.length := by
  simp [listing, length_sortCmp, List.length_take]

/-- Claim C5: on the two documents actually present in the content directory
(dated 2024-04-28 and 2024-04-30) with count 2, the output is the 2024-04-30
document first and the 2024-04-28 document second, for either collection
order of the input pair. -/
theorem listing_concrete_order :
    listing allBlogs 2 = [serializeResponseNestjs, formatNestjsResponse] ∧
    listing [serializeResponseNestjs, formatNestjsResponse] 2
      = [serializeResponseNestjs, formatNestjsResponse] := by
  decide

/-- Claim C6: the sequence rendered under "Latest posts" is a permutation of
the first `min 2 |docs|` collection elements: truncation to 2 happens before
any ordering, and a document beyond the first two collection positions never
appears in the output. -/
theorem homeBlogs_perm_take_two (docs : List BlogDocument) :
    (homeBlogs docs).Perm (docs.take 2) ∧
    (homeBlogs docs).length = min 2 docs.length ∧
    ∀ d, d ∈ homeBlogs docs → d ∈ docs.take 2 := by
  refine ⟨perm_sortCmp dateCmp (docs.take 2), ?_, ?_⟩
  · simp [homeBlogs, listing, length_sortCmp, List.length_take]
  · intro d hd
    exact (perm_sortCmp dateCmp (docs.take 2)).mem_iff.mp hd

/-- Witness for claim C6 at the concrete generated collection. -/
theorem homeBlogs_perm_take_two_witness :
    (homeBlogs allBlogs).Perm (allBlogs.take 2) ∧
    formatNestjsResponse ∈ allBlogs.take 2 :=
  ⟨(homeBlogs_perm_take_two allBlogs).1,
   (homeBlogs_perm_take_two allBlogs).2.2 formatNestjsResponse (by decide)⟩

/-- Claim C7: the listing has no error conditions; in particular the empty
collection yields the empty sequence for every count. -/
theorem listing_empty_input (n : Nat) : listing [] n = [] := by
  simp [listing, sortCmp]

/-- Claim C8: the render step leaves the input collection unchanged, and its
rendered component is exactly the pure listing: `slice(0, 2)` copies, and
`sort` mutates only that copy. -/
theorem homeRender_preserves_collection (docs : List BlogDocument) :
    (homeRender docs).2 = docs ∧ (homeRender docs).1 = homeBlogs docs :=
  ⟨rfl, rfl⟩

/-- Claim C9: running the render step again on the collection left by a first
run produces the identical result: the listing is deterministic and
idempotent over the immutable input. -/
theorem homeRender_idempotent (docs : List BlogDocument) :
    homeRender ((homeRender docs).2) = homeRender docs :=
  rfl

/-- Claim C10: blog slugs are unique across the generated document set; the
two documents derived from the two distinct content filenames have distinct
slugs. -/
theorem blog_slugs_unique :
    List.Pairwise (fun a b => a.slug ≠ b.slug) allBlogs := by
  decide
